import Mathlib

/-!
Shallow embedding of the research-assistant session orchestration code
(Next.js route handlers and library code under src/), together with proofs
about the claims made by the spec.

Conventions used throughout the embedding:
* Machine state that the code keeps in Firestore is represented by explicit
  `ResearchSession` values; a `sessionRef.update({...})` call becomes a Lean
  record update.  The store is modelled as reliable: an update always takes
  effect.
* Each `new Date()` call is modelled as a fresh tick of a logical clock
  (a `Nat` threaded through the functions).
* JavaScript truthiness of an optional string field (`!x` rejects both a
  missing field and the empty string) is modelled by `truthy`.
* String operations are modelled at the character-list level
  (`charTrim`, `splitCh`, ...) so that every definition evaluates inside the
  kernel; they implement exactly the JavaScript semantics used by the code
  (`String.prototype.trim`, `String.prototype.split('\n')`, and the regular
  expression `^\d+[.)]\s+` with `\d = [0-9]` and whitespace as blank, tab,
  carriage return or newline).
* Fallible external calls (the two provider calls and the render-and-email
  step) are oracles of type `Except String _`: `Except.error msg` is a
  rejected promise / thrown exception carrying `msg`.
-/

namespace ResearchAssistant

/-- Status values of a research session (src/types/index.ts, `ResearchStatus`). -/
inductive ResearchStatus where
  | pending
  | refining
  | processing
  | completed
  | failed
  | email_sent
deriving DecidableEq

/-- One refinement question (src/types/index.ts, `RefinementQuestion`). -/
structure RefinementQuestion where
  id : String
  question : String
  answer : Option String := none
deriving DecidableEq

/-- The session record stored in Firestore (src/types/index.ts, `ResearchSession`).
Timestamps are logical clock ticks. -/
structure ResearchSession where
  id : String
  userId : String
  userEmail : String
  initialPrompt : String
  refinedPrompt : Option String := none
  refinementQuestions : List RefinementQuestion := []
  openaiResult : Option String := none
  geminiResult : Option String := none
  status : ResearchStatus
  createdAt : Nat
  updatedAt : Nat
  completedAt : Option Nat := none
  pdfUrl : Option String := none
  emailSentAt : Option Nat := none
  error : Option String := none
deriving DecidableEq

/-- JavaScript truthiness of an optional string: `undefined` and `""` are falsy,
every other string is truthy. -/
def truthy : Option String → Bool
  | none => false
  | some s => !(s == "")

/-- JavaScript coercion of a possibly-undefined string into a template literal. -/
def jsStr : Option String → String
  | none => "undefined"
  | some s => s

/-- Character-level model of JavaScript whitespace as used by the code
(space, tab, carriage return, newline). -/
def charTrim (l : List Char) : List Char :=
  ((l.dropWhile Char.isWhitespace).reverse.dropWhile Char.isWhitespace).reverse

/-- Model of `String.prototype.trim`. -/
def jsTrim (s : String) : String :=
  String.mk (charTrim s.data)

/-- Model of `String.prototype.split(sep)` for a single-character separator. -/
def splitCh (sep : Char) : List Char → List (List Char)
  | [] => [[]]
  | c :: cs =>
    if c == sep then [] :: splitCh sep cs
    else
      match splitCh sep cs with
      | [] => [[c]]
      | l :: ls => (c :: l) :: ls

/-- Bool-valued check that the first list starts the second one. -/
def isPrefixCh : List Char → List Char → Bool
  | [], _ => true
  | _ :: _, [] => false
  | a :: as, b :: bs => a == b && isPrefixCh as bs

/-- Model of `String.prototype.includes`: does `needle` occur somewhere in `hay`? -/
def containsSeq (needle hay : List Char) : Bool :=
  hay.tails.any fun t => isPrefixCh needle t

/-- Model of matching the regular expression `^\d+[.)]\s+` against a character list.
On success it returns the remainder of the list after the (greedy) match, i.e.
after one or more digits, a `.` or `)`, and one or more whitespace characters. -/
def matchEnum : List Char → Option (List Char)
  | [] => none
  | c :: cs =>
    if c.isDigit then
      match cs.dropWhile Char.isDigit with
      | [] => none
      | d :: ds =>
        if d == '.' || d == ')' then
          match ds with
          | [] => none
          | e :: es =>
            if e.isWhitespace then some (es.dropWhile Char.isWhitespace) else none
        else none
    else none

/-- The sentinel token the refinement planner looks for
(src/app/api/research/route.ts, `getRefinementQuestions`). -/
def sentinel : String := "NO_REFINEMENT_NEEDED"

/-- A response line qualifies as a question iff the trimmed line is nonempty and
matches `^\d+[.)]\s+` (src/app/api/research/route.ts line 268:
`line.trim().length > 0 && /^\d+[.)]\s+/.test(line.trim())`). -/
def qualifiesLine (line : String) : Bool :=
  decide (0 < (charTrim line.data).length) && (matchEnum (charTrim line.data)).isSome

/-- The question text extracted from a qualifying line
(src/app/api/research/route.ts line 272:
`line.replace(/^\d+[.)]\s+/, '').trim()`).  Note that the replacement is applied
to the raw line, not the trimmed one, exactly as in the source. -/
def questionTextOf (line : String) : String :=
  jsTrim (String.mk ((matchEnum line.data).getD line.data))

/-- Numbering of the filtered question lines: the JavaScript
`questionLines.map((line, index) => ({id: 'q' + (index + 1), question: ...}))`. -/
def numberQuestions : Nat → List String → List RefinementQuestion
  | _, [] => []
  | i, line :: rest =>
    { id := "q" ++ toString (i + 1), question := questionTextOf line, answer := none } ::
      numberQuestions (i + 1) rest

/-- The refinement planner (src/app/api/research/route.ts,
`getRefinementQuestions`).  The argument is the provider response: `none` models
a provider call that failed for any reason (the code catches the error and
returns `[]`); `some r` is the completion text (already defaulted to `""` by
`completion.choices[0].message.content || ''`). -/
def getRefinementQuestions (response : Option String) : List RefinementQuestion :=
  match response with
  | none => []
  | some r =>
    if containsSeq sentinel.data r.data then []
    else
      let questionLines := ((splitCh '\n' r.data).map String.mk).filter qualifiesLine
      numberQuestions 0 questionLines

/-- The per-submission question update (src/app/api/refinement/route.ts lines 33-35:
`session.refinementQuestions.map(q => q.id === questionId ? {...q, answer} : q)`). -/
def updateQuestions (qs : List RefinementQuestion) (questionId answer : String) :
    List RefinementQuestion :=
  qs.map fun q => if q.id == questionId then { q with answer := some answer } else q

/-- The all-answered predicate (src/app/api/refinement/route.ts line 42:
`updatedQuestions.every(q => q.answer)`); JavaScript truthiness of the answer. -/
def allAnswered (qs : List RefinementQuestion) : Bool :=
  qs.all fun q => truthy q.answer

/-- One question/answer pair of the refined prompt
(src/app/api/refinement/route.ts line 46). -/
def qaPair (q : RefinementQuestion) : String :=
  "Q: " ++ q.question ++ "\nA: " ++ jsStr q.answer

/-- The joined question/answer section (src/app/api/refinement/route.ts lines 45-47). -/
def qaSection (qs : List RefinementQuestion) : String :=
  String.intercalate "\n\n" (qs.map qaPair)

/-- The refined-prompt composition, combining the two code sites that produce a
refined prompt: with zero questions the research route stores the initial
prompt verbatim (src/app/api/research/route.ts line 46,
`refinedPrompt: prompt`); with questions present the refinement route appends
the Additional context section (src/app/api/refinement/route.ts line 49). -/
def composeRefinedPrompt (initialPrompt : String) (qs : List RefinementQuestion) : String :=
  if qs.isEmpty then initialPrompt
  else initialPrompt ++ "\n\nAdditional context:\n" ++ qaSection qs

/-- A sequence of answer submissions `(questionId, answer)` applied one after the
other through `updateQuestions`, as repeated POSTs to the refinement endpoint do. -/
def applySubmissions (qs : List RefinementQuestion) (subs : List (String × String)) :
    List RefinementQuestion :=
  subs.foldl (fun acc sub => updateQuestions acc sub.1 sub.2) qs

/-- Outcomes of the external calls made by `performResearch`: the two provider
calls and the render-and-email step.  `Except.error msg` models a rejected
promise or thrown exception carrying message `msg`. -/
structure ResearchOutcome where
  openai : Except String String
  gemini : Except String String
  email : Except String Unit

/-- The sequence of session records written to the store by `performResearch`
(src/lib/research.ts lines 18-66, and the identical store-write sequence of the
copies embedded in src/app/api/refinement/route.ts, src/app/api/research/route.ts
and src/app/api/process-research/route.ts):
if either provider call fails, the catch block writes a single failed record;
if both succeed, one update writes both results together with the completed
status, then the render-and-email step either leads to the email_sent update or
to the failed update of the catch block.  Each store write appears as one list
element; no intermediate record is ever written. -/
def performResearchTrace (s : ResearchSession) (o : ResearchOutcome) (t : Nat) :
    List ResearchSession :=
  match o.openai, o.gemini with
  | .error e, _ =>
    [{ s with status := .failed, error := some e, updatedAt := t }]
  | .ok _, .error e =>
    [{ s with status := .failed, error := some e, updatedAt := t }]
  | .ok a, .ok b =>
    let c1 := { s with openaiResult := some a, geminiResult := some b,
                       status := .completed, completedAt := some t, updatedAt := t }
    match o.email with
    | .ok _ =>
      [c1, { c1 with status := .email_sent, emailSentAt := some (t + 1), updatedAt := t + 1 }]
    | .error m =>
      [c1, { c1 with status := .failed, error := some m, updatedAt := t + 1 }]

/-- Request body of the refinement endpoint; `none` models a missing field. -/
structure SubmitRefinementRequest where
  sessionId : Option String
  questionId : Option String
  answer : Option String
deriving DecidableEq

/-- Responses of the refinement endpoint (src/app/api/refinement/route.ts). -/
inductive SubmitRefinementResponse where
  | missingFields
  | notFound
  | stillRefining (sessionId : String) (nextQuestion : Option RefinementQuestion)
  | nowProcessing (sessionId : String) (refinedPrompt : String)
deriving DecidableEq

/-- The refinement endpoint POST (src/app/api/refinement/route.ts lines 15-81).
`store` is the looked-up session (`none` models a missing document).  The
returned session is the stored record after the writes of the handler itself; the
background `performResearch` launched by the all-answered branch continues
separately (see `refinementTrace`).  Note that the handler never inspects
`session.status`. -/
def submitRefinement (body : SubmitRefinementRequest) (store : Option ResearchSession)
    (t : Nat) : SubmitRefinementResponse × Option ResearchSession :=
  if truthy body.sessionId && truthy body.questionId && truthy body.answer then
    match store with
    | none => (.notFound, none)
    | some session =>
      let updatedQuestions := updateQuestions session.refinementQuestions
        (body.questionId.getD "") (body.answer.getD "")
      let s1 := { session with refinementQuestions := updatedQuestions, updatedAt := t }
      if allAnswered updatedQuestions then
        let rp := session.initialPrompt ++ "\n\nAdditional context:\n" ++
          qaSection updatedQuestions
        let s2 := { s1 with refinedPrompt := some rp, status := .processing,
                            updatedAt := t + 1 }
        (.nowProcessing (body.sessionId.getD "") rp, some s2)
      else
        (.stillRefining (body.sessionId.getD "")
          (updatedQuestions.find? fun q => !truthy q.answer), some s1)
  else (.missingFields, store)

/-- The full sequence of session records stored by one refinement POST, including
the background research routine it fires off in the all-answered branch
(sequential-consistency view: the fire-and-forget `performResearch` runs after
the two updates performed by the handler itself). -/
def refinementTrace (body : SubmitRefinementRequest) (store : Option ResearchSession)
    (o : ResearchOutcome) (t : Nat) : List ResearchSession :=
  if truthy body.sessionId && truthy body.questionId && truthy body.answer then
    match store with
    | none => []
    | some session =>
      let updatedQuestions := updateQuestions session.refinementQuestions
        (body.questionId.getD "") (body.answer.getD "")
      let s1 := { session with refinementQuestions := updatedQuestions, updatedAt := t }
      if allAnswered updatedQuestions then
        let rp := session.initialPrompt ++ "\n\nAdditional context:\n" ++
          qaSection updatedQuestions
        let s2 := { s1 with refinedPrompt := some rp, status := .processing,
                            updatedAt := t + 1 }
        s1 :: s2 :: performResearchTrace s2 o (t + 2)
      else [s1]
  else []

/-- Session created by the research-start endpoint
(src/app/api/research/route.ts lines 24-79): `none` is returned for a missing
identity header, a missing prompt or a whitespace-only prompt (the 401/400
branches, which create nothing).  `providerResponse` feeds the refinement
planner and `sid` is the freshly allocated document id. -/
def startResearch (userId userEmail promptField : Option String)
    (providerResponse : Option String) (sid : String) (t : Nat) :
    Option ResearchSession :=
  if truthy userId && truthy userEmail then
    match promptField with
    | none => none
    | some p =>
      if (charTrim p.data).length == 0 then none
      else
        let qs := getRefinementQuestions providerResponse
        if qs.isEmpty then
          some { id := sid, userId := userId.getD "", userEmail := userEmail.getD "",
                 initialPrompt := p, refinedPrompt := some p, refinementQuestions := [],
                 status := .processing, createdAt := t, updatedAt := t }
        else
          some { id := sid, userId := userId.getD "", userEmail := userEmail.getD "",
                 initialPrompt := p, refinementQuestions := qs,
                 status := .refining, createdAt := t, updatedAt := t }
  else none

/-- Request body of the internal resume/process endpoint; `none` models a
missing field. -/
structure ProcessResearchRequest where
  sessionId : Option String
  prompt : Option String
deriving DecidableEq

/-- Responses of the internal resume/process endpoint
(src/app/api/process-research/route.ts): `success` is the
`{success: true, ...}` payload; `missingFields` the 400 error payload;
`invalidBody` the 500 error payload produced when `request.json()` throws. -/
inductive ProcessResearchResponse where
  | success (sessionId : String)
  | missingFields
  | invalidBody
deriving DecidableEq

/-- The internal resume/process endpoint POST
(src/app/api/process-research/route.ts lines 23-49).  `body = none` models an
unparsable request body.  After validation the handler awaits `performResearch`,
which has a catch-all around its whole body (and a nested catch around the
failure write), so it never rejects; the handler therefore always reaches the
`success: true` response, whatever the research outcome.  When the session
document is missing, the store updates inside `performResearch` throw, are
swallowed by the same catch blocks, and the endpoint still answers success. -/
def processResearchEndpoint (body : Option ProcessResearchRequest)
    (store : Option ResearchSession) (o : ResearchOutcome) (t : Nat) :
    ProcessResearchResponse × Option ResearchSession :=
  match body with
  | none => (.invalidBody, store)
  | some b =>
    if truthy b.sessionId && truthy b.prompt then
      match store with
      | none => (.success (b.sessionId.getD ""), none)
      | some s => (.success (b.sessionId.getD ""),
                   some ((performResearchTrace s o t).getLastD s))
    else (.missingFields, store)

/-- Payload of the fetch-results endpoint (src/types/index.ts,
`ResearchResultsResponse`). -/
structure ResearchResultsResponse where
  sessionId : String
  status : ResearchStatus
  openaiResult : Option String
  geminiResult : Option String
  pdfUrl : Option String
  error : Option String
deriving DecidableEq

/-- Responses of the fetch-results endpoint (src/app/api/results/route.ts). -/
inductive FetchResultsResponse where
  | missingSessionId
  | notFound
  | ok (payload : ResearchResultsResponse)
deriving DecidableEq

/-- The fetch-results endpoint GET (src/app/api/results/route.ts lines 5-47).
The payload always carries the stored result fields, whatever the status. -/
def fetchResults (sessionIdParam : Option String) (store : Option ResearchSession) :
    FetchResultsResponse :=
  if truthy sessionIdParam then
    match store with
    | none => .notFound
    | some s => .ok ⟨s.id, s.status, s.openaiResult, s.geminiResult, s.pdfUrl, s.error⟩
  else .missingSessionId

/-- Events of a provider call as seen from the research stage: issuing the
outbound call and the call settling (resolving or rejecting). -/
inductive ProviderEvent where
  | openaiStart
  | openaiSettle
  | geminiStart
  | geminiSettle
deriving DecidableEq

/-- Is this event the start of an outbound call? -/
def isStartEvent : ProviderEvent → Bool
  | .openaiStart => true
  | .geminiStart => true
  | _ => false

/-- Call-event trace of the `performResearch` copies embedded in the route files
(src/app/api/refinement/route.ts lines 90-96, src/app/api/research/route.ts
lines 287-293, src/app/api/process-research/route.ts lines 58-63): the OpenAI
call is awaited to completion before the Gemini call is issued, and if the
OpenAI call rejects the Gemini call is never issued. -/
def seqProviderEvents (o : ResearchOutcome) : List ProviderEvent :=
  [.openaiStart, .openaiSettle] ++
    match o.openai with
    | .ok _ => [.geminiStart, .geminiSettle]
    | .error _ => []

/-- Call-event trace of `performResearch` in src/lib/research.ts (lines 24-27):
`Promise.all` issues both calls before awaiting, so both start events precede
both settle events; the settle order is a representative choice, immaterial to
the properties proved here. -/
def parProviderEvents (_o : ResearchOutcome) : List ProviderEvent :=
  [.openaiStart, .geminiStart, .openaiSettle, .geminiSettle]

/-- Both provider calls are issued before either settles: the trace contains two
start events and they precede every other event. -/
def startedTogether (tr : List ProviderEvent) : Bool :=
  (tr.countP fun e => isStartEvent e) == 2 &&
    (tr.takeWhile fun e => isStartEvent e).length == 2

/-- Rank of a status along the chain
pending < refining < processing < completed < email_sent.  The failed status is
not on the chain; `statusForward` handles it separately and never consults its
rank. -/
def statusRank : ResearchStatus → Nat
  | .pending => 0
  | .refining => 1
  | .processing => 2
  | .completed => 3
  | .email_sent => 4
  | .failed => 0

/-- The transitions the spec allows between two consecutively stored statuses:
staying put, moving strictly forward along the chain, or entering failed from
refining, processing or completed.  In particular nothing leaves email_sent or
failed. -/
def statusForward (a b : ResearchStatus) : Bool :=
  a == b ||
  (b == .failed && (a == .refining || a == .processing || a == .completed)) ||
  (!(a == .failed) && !(b == .failed) && statusRank a < statusRank b)

/-- Every consecutive pair of a status sequence is an allowed forward transition. -/
def chainForward : List ResearchStatus → Bool
  | [] => true
  | [_] => true
  | a :: b :: rest => statusForward a b && chainForward (b :: rest)

/-- Answers are either unset or non-empty strings. -/
def answerOk (q : RefinementQuestion) : Bool :=
  match q.answer with
  | none => true
  | some a => !(a == "")

/-- Every stored answer of the session is a non-empty string. -/
def answersNonEmpty (s : ResearchSession) : Bool :=
  s.refinementQuestions.all answerOk

/-! Concrete sample data used by witnesses and counterexamples. -/

/-- A refinement question that has already been answered. -/
def sampleQuestion : RefinementQuestion :=
  { id := "q1", question := "Time period?", answer := some "Last 2 years" }

/-- The same question before any answer was submitted. -/
def sampleUnanswered : RefinementQuestion :=
  { id := "q1", question := "Time period?", answer := none }

/-- The refined prompt composed from initial prompt "P" and `sampleQuestion`. -/
def sampleRefinedPrompt : String :=
  "P\n\nAdditional context:\nQ: Time period?\nA: Last 2 years"

/-- A session that has reached the terminal email_sent state. -/
def sampleTerminalSession : ResearchSession :=
  { id := "s1", userId := "u", userEmail := "u@example.com", initialPrompt := "P",
    refinedPrompt := some sampleRefinedPrompt, refinementQuestions := [sampleQuestion],
    openaiResult := some "o", geminiResult := some "g", status := .email_sent,
    createdAt := 0, updatedAt := 5, completedAt := some 3, emailSentAt := some 4 }

/-- A session in processing, with its refined prompt composed and no results yet. -/
def sampleProcessingSession : ResearchSession :=
  { id := "s1", userId := "u", userEmail := "u@example.com", initialPrompt := "P",
    refinedPrompt := some sampleRefinedPrompt, refinementQuestions := [sampleQuestion],
    status := .processing, createdAt := 0, updatedAt := 2 }

/-- A session in refining whose single question is still unanswered. -/
def sampleRefiningSession : ResearchSession :=
  { id := "s1", userId := "u", userEmail := "u@example.com", initialPrompt := "P",
    refinementQuestions := [sampleUnanswered], status := .refining,
    createdAt := 0, updatedAt := 0 }

/-- A refinement POST that re-submits the answer `sampleQuestion` already holds. -/
def sampleResubmission : SubmitRefinementRequest :=
  ⟨some "s1", some "q1", some "Last 2 years"⟩

/-- Both providers and the delivery step succeed. -/
def sampleOutcomeOk : ResearchOutcome := ⟨.ok "openai findings", .ok "gemini findings", .ok ()⟩

/-- Both providers succeed, the render-and-email step fails. -/
def sampleOutcomeEmailFail : ResearchOutcome :=
  ⟨.ok "openai findings", .ok "gemini findings", .error "smtp down"⟩

/-- The OpenAI provider call fails. -/
def sampleOutcomeOpenAIFail : ResearchOutcome :=
  ⟨.error "rate limited", .ok "gemini findings", .ok ()⟩

/-- The Gemini provider call fails. -/
def sampleOutcomeGeminiFail : ResearchOutcome :=
  ⟨.ok "openai findings", .error "quota exceeded", .ok ()⟩

/-! Helper lemmas shared by the claim theorems. -/

theorem truthy_some_of_ne {s : String} (h : s ≠ "") : truthy (some s) = true := by
  have hb : (s == "") = false := beq_eq_false_iff_ne.mpr h
  simp [truthy, hb]

theorem truthy_iff (o : Option String) :
    truthy o = true ↔ ∃ a, o = some a ∧ a ≠ "" := by
  cases o with
  | none => simp [truthy]
  | some a =>
    constructor
    · intro h
      refine ⟨a, rfl, ?_⟩
      intro hcontra
      subst hcontra
      simp [truthy] at h
    · rintro ⟨b, hb, hne⟩
      cases hb
      exact truthy_some_of_ne hne

theorem updateQuestions_map_id (qs : List RefinementQuestion) (i a : String) :
    (updateQuestions qs i a).map (fun q => q.id) = qs.map (fun q => q.id) := by
  unfold updateQuestions
  rw [List.map_map]
  refine List.map_congr_left fun q _ => ?_
  obtain ⟨qid, qq, qa⟩ := q
  by_cases h : qid == i <;> simp [Function.comp, h]

theorem updateQuestions_map_question (qs : List RefinementQuestion) (i a : String) :
    (updateQuestions qs i a).map (fun q => q.question) = qs.map (fun q => q.question) := by
  unfold updateQuestions
  rw [List.map_map]
  refine List.map_congr_left fun q _ => ?_
  obtain ⟨qid, qq, qa⟩ := q
  by_cases h : qid == i <;> simp [Function.comp, h]

theorem updateQuestions_comm (qs : List RefinementQuestion) (i1 a1 i2 a2 : String)
    (h : i1 ≠ i2) :
    updateQuestions (updateQuestions qs i1 a1) i2 a2 =
      updateQuestions (updateQuestions qs i2 a2) i1 a1 := by
  unfold updateQuestions
  rw [List.map_map, List.map_map]
  refine List.map_congr_left fun q _ => ?_
  obtain ⟨qid, qq, qa⟩ := q
  have h21 : i2 ≠ i1 := Ne.symm h
  by_cases h1 : qid = i1 <;> by_cases h2 : qid = i2
  · subst h1; exact absurd h2 h
  all_goals simp [Function.comp, beq_iff_eq, h1, h2, h, h21]

theorem applySubmissions_cons (qs : List RefinementQuestion) (sub : String × String)
    (subs : List (String × String)) :
    applySubmissions qs (sub :: subs) =
      applySubmissions (updateQuestions qs sub.1 sub.2) subs := rfl

theorem applySubmissions_map_id (qs : List RefinementQuestion)
    (subs : List (String × String)) :
    (applySubmissions qs subs).map (fun q => q.id) = qs.map (fun q => q.id) := by
  induction subs generalizing qs with
  | nil => rfl
  | cons sub rest ih => rw [applySubmissions_cons, ih, updateQuestions_map_id]

theorem applySubmissions_map_question (qs : List RefinementQuestion)
    (subs : List (String × String)) :
    (applySubmissions qs subs).map (fun q => q.question) = qs.map (fun q => q.question) := by
  induction subs generalizing qs with
  | nil => rfl
  | cons sub rest ih => rw [applySubmissions_cons, ih, updateQuestions_map_question]

theorem applySubmissions_perm (qs : List RefinementQuestion)
    {subs subs2 : List (String × String)} (hperm : subs.Perm subs2)
    (hnodup : (subs.map Prod.fst).Nodup) :
    applySubmissions qs subs = applySubmissions qs subs2 := by
  unfold applySubmissions
  refine hperm.foldl_eq' ?_ qs
  intro x hx y hy z
  by_cases hxy : x = y
  · subst hxy; rfl
  · have hne : x.1 ≠ y.1 := fun hfst => hxy (List.inj_on_of_nodup_map hnodup hx hy hfst)
    exact updateQuestions_comm z x.1 x.2 y.1 y.2 hne

theorem allAnswered_iff (qs : List RefinementQuestion) :
    allAnswered qs = true ↔ ∀ q ∈ qs, ∃ a, q.answer = some a ∧ a ≠ "" := by
  unfold allAnswered
  rw [List.all_eq_true]
  constructor
  · intro h q hq
    exact (truthy_iff q.answer).mp (h q hq)
  · intro h q hq
    exact (truthy_iff q.answer).mpr (h q hq)

theorem numberQuestions_map_question (i : Nat) (lines : List String) :
    (numberQuestions i lines).map (fun q => q.question) = lines.map questionTextOf := by
  induction lines generalizing i with
  | nil => rfl
  | cons l rest ih => simp [numberQuestions, ih]

theorem numberQuestions_map_id (i : Nat) (lines : List String) :
    (numberQuestions i lines).map (fun q => q.id) =
      (List.range lines.length).map (fun k => "q" ++ toString (i + k + 1)) := by
  induction lines generalizing i with
  | nil => rfl
  | cons l rest ih =>
    simp only [numberQuestions, List.map_cons, List.length_cons,
      List.range_succ_eq_map, List.map_map, ih]
    refine congrArg₂ _ (by simp) ?_
    refine List.map_congr_left fun k _ => ?_
    simp [Function.comp, Nat.succ_eq_add_one]
    ring_nf

theorem numberQuestions_answers_none (i : Nat) (lines : List String) :
    (numberQuestions i lines).all answerOk = true := by
  induction lines generalizing i with
  | nil => rfl
  | cons l rest ih => simp [numberQuestions, answerOk, ih]

theorem updateQuestions_answerOk (qs : List RefinementQuestion) (i a : String)
    (ha : a ≠ "") (hall : qs.all answerOk = true) :
    (updateQuestions qs i a).all answerOk = true := by
  rw [List.all_eq_true] at hall ⊢
  intro q hq
  unfold updateQuestions at hq
  rw [List.mem_map] at hq
  obtain ⟨q0, hq0, rfl⟩ := hq
  by_cases h : q0.id == i
  · simp [h, answerOk, ha]
  · simp [h]
    exact hall q0 hq0

/-- C4: for every initial prompt and list of answered questions the composed
refined prompt is the initial prompt followed by the fixed "Additional context:"
section listing exactly N Q/A pairs in original question order; with zero
questions the refined prompt is the initial prompt verbatim.  The last two
conjuncts tie the pure composition to the two code sites: the refinement
endpoint stores exactly this composition in its all-answered branch, and the
zero-question path of the research endpoint stores the verbatim prompt. -/
theorem C4_compose_refined_prompt (p : String) (qs : List RefinementQuestion)
    (hne : qs ≠ []) :
    composeRefinedPrompt p [] = p ∧
    composeRefinedPrompt p qs =
      p ++ "\n\nAdditional context:\n" ++ String.intercalate "\n\n" (qs.map qaPair) ∧
    (qs.map qaPair).length = qs.length ∧
    (∀ (s : ResearchSession) (sid qid ans : String) (t : Nat),
      sid ≠ "" → qid ≠ "" → ans ≠ "" → s.refinementQuestions ≠ [] →
      allAnswered (updateQuestions s.refinementQuestions qid ans) = true →
      ((submitRefinement ⟨some sid, some qid, some ans⟩ (some s) t).2.bind
          fun s2 => s2.refinedPrompt) =
        some (composeRefinedPrompt s.initialPrompt
          (updateQuestions s.refinementQuestions qid ans))) ∧
    (∀ (p2 sid : String) (t : Nat), (charTrim p2.data).length ≠ 0 →
      ((startResearch (some "user") (some "user@example.com") (some p2) none sid t).bind
          fun s => s.refinedPrompt) = some (composeRefinedPrompt p2 [])) := by
  have hqs : qs.isEmpty = false := by
    cases qs with
    | nil => exact absurd rfl hne
    | cons a l => rfl
  refine ⟨by simp [composeRefinedPrompt], ?_, by simp, ?_, ?_⟩
  · simp [composeRefinedPrompt, hqs, qaSection]
  · intro s sid qid ans t hsid hqid hans hqs2 hall
    have hne2 : (updateQuestions s.refinementQuestions qid ans).isEmpty = false := by
      unfold updateQuestions
      cases hq : s.refinementQuestions with
      | nil => exact absurd hq hqs2
      | cons a l => rfl
    simp [submitRefinement, truthy_some_of_ne hsid, truthy_some_of_ne hqid,
      truthy_some_of_ne hans, hall, composeRefinedPrompt, hne2, qaSection]
  · intro p2 sid t hp
    have hb : ((charTrim p2.data).length == 0) = false := beq_eq_false_iff_ne.mpr hp
    simp [startResearch, truthy, hb, getRefinementQuestions, composeRefinedPrompt]

/-- C4 witness: the theorem applied to prompt "P" and the one-question list. -/
theorem C4_compose_refined_prompt_witness :
    composeRefinedPrompt "P" [] = "P" ∧
    composeRefinedPrompt "P" [sampleQuestion] =
      "P" ++ "\n\nAdditional context:\n" ++
        String.intercalate "\n\n" ([sampleQuestion].map qaPair) := by
  have h := C4_compose_refined_prompt "P" [sampleQuestion] (by decide)
  exact ⟨h.1, h.2.1⟩

/-- C5: submitting the answers of a session in any order yields the same final
question list, hence the same all-answered verdict and the same refined prompt;
the composition iterates by the original question order (ids and question texts
keep their original positions), and "all answered" is the set predicate that
every question carries a non-empty answer. -/
theorem C5_submission_order_irrelevant (p : String) (qs : List RefinementQuestion)
    (subs subs2 : List (String × String)) (hperm : subs.Perm subs2)
    (hnodup : (subs.map Prod.fst).Nodup) :
    applySubmissions qs subs = applySubmissions qs subs2 ∧
    composeRefinedPrompt p (applySubmissions qs subs) =
      composeRefinedPrompt p (applySubmissions qs subs2) ∧
    allAnswered (applySubmissions qs subs) = allAnswered (applySubmissions qs subs2) ∧
    (applySubmissions qs subs).map (fun q => q.id) = qs.map (fun q => q.id) ∧
    (applySubmissions qs subs).map (fun q => q.question) = qs.map (fun q => q.question) ∧
    (allAnswered (applySubmissions qs subs) = true ↔
      ∀ q ∈ applySubmissions qs subs, ∃ a, q.answer = some a ∧ a ≠ "") := by
  have main := applySubmissions_perm qs hperm hnodup
  exact ⟨main, by rw [main], by rw [main], applySubmissions_map_id qs subs,
    applySubmissions_map_question qs subs, allAnswered_iff _⟩

/-- C5 witness: two questions answered in the two possible orders give the same
updated question list. -/
theorem C5_submission_order_irrelevant_witness :
    applySubmissions [sampleUnanswered, ⟨"q2", "Focus?", none⟩] [("q2", "y"), ("q1", "x")] =
      applySubmissions [sampleUnanswered, ⟨"q2", "Focus?", none⟩] [("q1", "x"), ("q2", "y")] :=
  (C5_submission_order_irrelevant "P" [sampleUnanswered, ⟨"q2", "Focus?", none⟩]
    [("q2", "y"), ("q1", "x")] [("q1", "x"), ("q2", "y")]
    (List.Perm.swap ("q1", "x") ("q2", "y") []) (by decide)).1

/-- C10: the refinement endpoint rejects an empty-string answer exactly like a
missing field, with no session write; every session write performed by the
endpoint keeps all stored answers non-empty (given that planner-created
questions start unanswered, which the fourth conjunct states), and the
truthiness-based all-answered check coincides with "every question has a
non-empty answer". -/
theorem C10_empty_answer_rejected (s : ResearchSession) (sidOpt qidOpt : Option String)
    (t : Nat) :
    submitRefinement ⟨sidOpt, qidOpt, some ""⟩ (some s) t = (.missingFields, some s) ∧
    submitRefinement ⟨sidOpt, qidOpt, none⟩ (some s) t = (.missingFields, some s) ∧
    (∀ (body : SubmitRefinementRequest) (s2 : ResearchSession),
      answersNonEmpty s = true →
      (submitRefinement body (some s) t).2 = some s2 →
      answersNonEmpty s2 = true) ∧
    (∀ resp, (getRefinementQuestions resp).all answerOk = true) ∧
    (allAnswered s.refinementQuestions = true ↔
      ∀ q ∈ s.refinementQuestions, ∃ a, q.answer = some a ∧ a ≠ "") := by
  refine ⟨by simp [submitRefinement, truthy], by simp [submitRefinement, truthy],
    ?_, ?_, allAnswered_iff _⟩
  · intro body s2 hinv hw
    by_cases hg : truthy body.sessionId && truthy body.questionId && truthy body.answer
    · have hga : truthy body.answer = true := (Bool.and_eq_true_iff.mp hg).2
      obtain ⟨a, ha, hane⟩ := (truthy_iff body.answer).mp hga
      have hgetD : body.answer.getD "" = a := by rw [ha]; rfl
      by_cases hall : allAnswered (updateQuestions s.refinementQuestions
        (body.questionId.getD "") (body.answer.getD ""))
      · simp [submitRefinement, hg, hall] at hw
        rw [← hw]
        have := updateQuestions_answerOk s.refinementQuestions
          (body.questionId.getD "") (body.answer.getD "") (by rw [hgetD]; exact hane) hinv
        simpa [answersNonEmpty] using this
      · simp [submitRefinement, hg, hall] at hw
        rw [← hw]
        have := updateQuestions_answerOk s.refinementQuestions
          (body.questionId.getD "") (body.answer.getD "") (by rw [hgetD]; exact hane) hinv
        simpa [answersNonEmpty] using this
    · simp [submitRefinement, hg] at hw
      rw [← hw]
      exact hinv
  · intro resp
    cases resp with
    | none => rfl
    | some r =>
      unfold getRefinementQuestions
      by_cases hs2 : containsSeq sentinel.data r.data
      · simp [hs2]
      · simp [hs2, numberQuestions_answers_none]

/-- C10 witness: the theorem at the sample refining session; an empty answer is
rejected with no write. -/
theorem C10_empty_answer_rejected_witness :
    submitRefinement ⟨some "s1", some "q1", some ""⟩ (some sampleRefiningSession) 1 =
      (.missingFields, some sampleRefiningSession) :=
  (C10_empty_answer_rejected sampleRefiningSession (some "s1") (some "q1") 1).1

/-- C9: once the internal resume/process endpoint has a parseable body with
truthy sessionId and prompt, it responds success, even when the research
outcome makes the stored session end failed; the error payloads are reachable
exactly for an unparsable body or missing/empty fields. -/
theorem C9_process_endpoint_always_success (b : ProcessResearchRequest)
    (s : ResearchSession) (o : ResearchOutcome) (t : Nat)
    (hsid : truthy b.sessionId = true) (hp : truthy b.prompt = true) :
    (processResearchEndpoint (some b) (some s) o t).1 = .success (b.sessionId.getD "") ∧
    (∀ e, o.openai = .error e →
      ((processResearchEndpoint (some b) (some s) o t).2.map fun s2 => s2.status) =
        some .failed) ∧
    (∀ (body : Option ProcessResearchRequest) (store : Option ResearchSession),
      ((processResearchEndpoint body store o t).1 = .invalidBody ∨
        (processResearchEndpoint body store o t).1 = .missingFields) ↔
        (body = none ∨ ∃ b2, body = some b2 ∧
          (truthy b2.sessionId = false ∨ truthy b2.prompt = false))) := by
  refine ⟨by simp [processResearchEndpoint, hsid, hp], ?_, ?_⟩
  · intro e he
    obtain ⟨oa, og, oe⟩ := o
    simp only at he
    subst he
    simp [processResearchEndpoint, hsid, hp, performResearchTrace]
  · intro body store
    cases body with
    | none => simp [processResearchEndpoint]
    | some b2 =>
      by_cases hg : truthy b2.sessionId && truthy b2.prompt
      · have hg1 := (Bool.and_eq_true_iff.mp hg).1
        have hg2 := (Bool.and_eq_true_iff.mp hg).2
        cases store <;> simp [processResearchEndpoint, hg, hg1, hg2]
      · have hgf : (truthy b2.sessionId && truthy b2.prompt) = false := by
          simpa using hg
        have hdisj : truthy b2.sessionId = false ∨ truthy b2.prompt = false := by
          cases hc : truthy b2.sessionId with
          | false => exact Or.inl rfl
          | true => right; simpa [hc] using hgf
        cases store <;> simp [processResearchEndpoint, hgf] <;> exact hdisj

/-- C9 witness: a well-formed body gets a success response even though the
OpenAI call failed and the session was marked failed. -/
theorem C9_process_endpoint_always_success_witness :
    (processResearchEndpoint (some ⟨some "s1", some "P"⟩) (some sampleProcessingSession)
        sampleOutcomeOpenAIFail 3).1 = .success "s1" ∧
    ((processResearchEndpoint (some ⟨some "s1", some "P"⟩) (some sampleProcessingSession)
        sampleOutcomeOpenAIFail 3).2.map fun s2 => s2.status) = some .failed := by
  have h := C9_process_endpoint_always_success ⟨some "s1", some "P"⟩
    sampleProcessingSession sampleOutcomeOpenAIFail 3 (by decide) (by decide)
  exact ⟨h.1, h.2.1 "rate limited" rfl⟩

/-- C2: if either provider call fails the research routine writes a single
failed record carrying the error message and leaves both result fields
untouched; when both succeed, both results are written in the same single
update that sets status completed; hence no stored record ever carries a result
for only one provider. -/
theorem C2_all_or_nothing_fanin (s : ResearchSession) (o : ResearchOutcome) (t : Nat)
    (hO : s.openaiResult = none) (hG : s.geminiResult = none) :
    (∀ e, o.openai = .error e →
      performResearchTrace s o t =
        [{ s with status := .failed, error := some e, updatedAt := t }]) ∧
    (∀ a e, o.openai = .ok a → o.gemini = .error e →
      performResearchTrace s o t =
        [{ s with status := .failed, error := some e, updatedAt := t }]) ∧
    (∀ a b, o.openai = .ok a → o.gemini = .ok b →
      ∃ rest, performResearchTrace s o t =
        { s with openaiResult := some a, geminiResult := some b,
                 status := .completed, completedAt := some t, updatedAt := t } :: rest) ∧
    (∀ st ∈ performResearchTrace s o t, st.openaiResult.isSome = st.geminiResult.isSome) := by
  obtain ⟨oa, og, oe⟩ := o
  refine ⟨?_, ?_, ?_, ?_⟩
  · intro e he
    simp only at he
    subst he
    simp [performResearchTrace]
  · intro a e ha he
    simp only at ha he
    subst ha
    subst he
    simp [performResearchTrace]
  · intro a b ha hb
    simp only at ha hb
    subst ha
    subst hb
    cases oe <;> exact ⟨_, rfl⟩
  · intro st hst
    cases oa with
    | error e =>
      simp [performResearchTrace] at hst
      subst hst
      simp [hO, hG]
    | ok a =>
      cases og with
      | error e =>
        simp [performResearchTrace] at hst
        subst hst
        simp [hO, hG]
      | ok b =>
        cases oe <;> simp [performResearchTrace] at hst <;>
          rcases hst with h1 | h2 <;> subst_vars <;> simp

/-- C2 witness: the theorem at the sample processing session, for a failing
OpenAI call and for the both-succeed case. -/
theorem C2_all_or_nothing_fanin_witness :
    performResearchTrace sampleProcessingSession sampleOutcomeOpenAIFail 3 =
      [{ sampleProcessingSession with
          status := .failed, error := some "rate limited", updatedAt := 3 }] ∧
    (∃ rest, performResearchTrace sampleProcessingSession sampleOutcomeOk 3 =
      { sampleProcessingSession with
          openaiResult := some "openai findings", geminiResult := some "gemini findings",
          status := .completed, completedAt := some 3, updatedAt := 3 } :: rest) := by
  refine ⟨(C2_all_or_nothing_fanin sampleProcessingSession sampleOutcomeOpenAIFail 3
    rfl rfl).1 "rate limited" rfl, ?_⟩
  exact (C2_all_or_nothing_fanin sampleProcessingSession sampleOutcomeOk 3 rfl rfl).2.2.1
    "openai findings" "gemini findings" rfl rfl

/-- C7 counterexample: with both providers succeeding and delivery failing at
clock 10, the failure write changes updatedAt from 10 to 11, so a field other
than status and error does change, against the statement that all other fields
are unchanged. -/
theorem C7_counterexample_updatedAt_changes :
    ((performResearchTrace sampleProcessingSession sampleOutcomeEmailFail 10).map
      fun st => st.updatedAt) = [10, 11] ∧ ¬ (10 : Nat) = 11 := by decide

/-- C7 (amended): after the completed write, a failing render-or-delivery step
writes a record that differs from the completed one exactly in status, error
and updatedAt; openaiResult, geminiResult, completedAt and every other field
are unchanged, and the fetch-results endpoint still returns both results. -/
theorem C7_results_survive_delivery_failure (s : ResearchSession) (a b m : String)
    (o : ResearchOutcome) (t : Nat) (hid : s.id ≠ "")
    (ho : o.openai = .ok a) (hg : o.gemini = .ok b) (he : o.email = .error m) :
    ∃ c1 c2, performResearchTrace s o t = [c1, c2] ∧
      c1 = { s with openaiResult := some a, geminiResult := some b,
                    status := .completed, completedAt := some t, updatedAt := t } ∧
      c2 = { c1 with status := .failed, error := some m, updatedAt := t + 1 } ∧
      c2.openaiResult = some a ∧ c2.geminiResult = some b ∧ c2.completedAt = some t ∧
      fetchResults (some s.id) (some c2) =
        .ok ⟨s.id, .failed, some a, some b, s.pdfUrl, some m⟩ := by
  obtain ⟨oa, og, oe⟩ := o
  simp only at ho hg he
  subst ho
  subst hg
  subst he
  refine ⟨_, _, rfl, rfl, rfl, rfl, rfl, rfl, ?_⟩
  simp [fetchResults, truthy_some_of_ne hid]

/-- C7 witness: the amended theorem at the sample processing session. -/
theorem C7_results_survive_delivery_failure_witness :
    ∃ c1 c2,
      performResearchTrace sampleProcessingSession sampleOutcomeEmailFail 10 = [c1, c2] ∧
      c1 = { sampleProcessingSession with
              openaiResult := some "openai findings", geminiResult := some "gemini findings",
              status := .completed, completedAt := some 10, updatedAt := 10 } ∧
      c2 = { c1 with status := .failed, error := some "smtp down", updatedAt := 11 } ∧
      c2.openaiResult = some "openai findings" ∧
      c2.geminiResult = some "gemini findings" ∧ c2.completedAt = some 10 ∧
      fetchResults (some sampleProcessingSession.id) (some c2) =
        .ok ⟨"s1", .failed, some "openai findings", some "gemini findings", none, some "smtp down"⟩ :=
  C7_results_survive_delivery_failure sampleProcessingSession
    "openai findings" "gemini findings" "smtp down" sampleOutcomeEmailFail 10
    (by decide) rfl rfl rfl

/-- C8 counterexample: in the performResearch variant embedded in the route
files (the one actually invoked by the refinement, research and
process-research endpoints), the Gemini call is issued only after the OpenAI
call settles, so the two calls are not started together. -/
theorem C8_counterexample_sequential_calls :
    startedTogether (seqProviderEvents sampleOutcomeOk) = false ∧
    seqProviderEvents sampleOutcomeOk =
      [.openaiStart, .openaiSettle, .geminiStart, .geminiSettle] := by decide

/-- C8 (amended): only the src/lib/research.ts variant starts both provider
calls before either settles; the route-embedded variant awaits the OpenAI call
before issuing the Gemini call and never issues it when the OpenAI call
rejects.  In every variant the store-level fan-in is all-or-nothing: failure of
either call yields a single failed write without results, and both results
appear first in the single update that sets completed. -/
theorem C8_fanout_fanin (s : ResearchSession) (o : ResearchOutcome) (t : Nat) :
    startedTogether (parProviderEvents o) = true ∧
    (∀ a, o.openai = .ok a →
      seqProviderEvents o = [.openaiStart, .openaiSettle, .geminiStart, .geminiSettle]) ∧
    (∀ e, o.openai = .error e → seqProviderEvents o = [.openaiStart, .openaiSettle]) ∧
    (∀ e, o.openai = .error e →
      performResearchTrace s o t =
        [{ s with status := .failed, error := some e, updatedAt := t }]) ∧
    (∀ a e, o.openai = .ok a → o.gemini = .error e →
      performResearchTrace s o t =
        [{ s with status := .failed, error := some e, updatedAt := t }]) ∧
    (∀ a b, o.openai = .ok a → o.gemini = .ok b →
      ∃ rest, performResearchTrace s o t =
        { s with openaiResult := some a, geminiResult := some b,
                 status := .completed, completedAt := some t, updatedAt := t } :: rest) := by
  obtain ⟨oa, og, oe⟩ := o
  refine ⟨rfl, ?_, ?_, ?_, ?_, ?_⟩
  · intro a ha
    simp only at ha
    subst ha
    rfl
  · intro e he
    simp only at he
    subst he
    rfl
  · intro e he
    simp only at he
    subst he
    simp [performResearchTrace]
  · intro a e ha he
    simp only at ha he
    subst ha
    subst he
    simp [performResearchTrace]
  · intro a b ha hb
    simp only at ha hb
    subst ha
    subst hb
    cases oe <;> exact ⟨_, rfl⟩

/-- C8 witness: the amended theorem applied at the sample session, for a
successful run and for a failing Gemini call. -/
theorem C8_fanout_fanin_witness :
    startedTogether (parProviderEvents sampleOutcomeOk) = true ∧
    performResearchTrace sampleProcessingSession sampleOutcomeGeminiFail 4 =
      [{ sampleProcessingSession with
          status := .failed, error := some "quota exceeded", updatedAt := 4 }] := by
  refine ⟨(C8_fanout_fanin sampleProcessingSession sampleOutcomeOk 4).1, ?_⟩
  exact (C8_fanout_fanin sampleProcessingSession sampleOutcomeGeminiFail 4).2.2.2.2.1
    "openai findings" "quota exceeded" rfl rfl

theorem performResearchTrace_chainForward (sp : ResearchSession) (o : ResearchOutcome)
    (tp : Nat) (hsp : sp.status = .processing) :
    chainForward ((sp :: performResearchTrace sp o tp).map ResearchSession.status) = true := by
  obtain ⟨oa, og, oe⟩ := o
  cases oa <;> cases og <;> cases oe <;>
    simp [performResearchTrace, chainForward, statusForward, statusRank, hsp]

/-- C1 counterexample: re-submitting an already-stored answer to a session in
the terminal email_sent state moves its status back to processing (and then
re-runs research), so the status sequence is not forward-only and email_sent is
escapable. -/
theorem C1_counterexample_terminal_escape :
    sampleTerminalSession.status = .email_sent ∧
    ((refinementTrace sampleResubmission (some sampleTerminalSession) sampleOutcomeOk 6).map
      ResearchSession.status) = [.email_sent, .processing, .completed, .email_sent] ∧
    chainForward ((sampleTerminalSession ::
      refinementTrace sampleResubmission (some sampleTerminalSession) sampleOutcomeOk 6).map
        ResearchSession.status) = false ∧
    statusForward .email_sent .processing = false := by decide

/-- C1 (amended): on the intended paths the status only moves forward: a
refinement POST against a session still in refining produces a forward-only
status chain (including the research it fires off), and the research routine
run against a session in processing produces a forward-only status chain.  The
endpoint however never checks the current status, so (per the counterexample)
a refinement POST against a session beyond refining can move status backward
and out of the terminal states. -/
theorem C1_status_forward_on_intended_paths (body : SubmitRefinementRequest)
    (s sp : ResearchSession) (o : ResearchOutcome) (t tp : Nat)
    (hs : s.status = .refining) (hsp : sp.status = .processing) :
    chainForward ((s :: refinementTrace body (some s) o t).map ResearchSession.status) = true ∧
    chainForward ((sp :: performResearchTrace sp o tp).map ResearchSession.status) = true := by
  refine ⟨?_, performResearchTrace_chainForward sp o tp hsp⟩
  by_cases hgd : truthy body.sessionId && truthy body.questionId && truthy body.answer
  · by_cases hall : allAnswered (updateQuestions s.refinementQuestions
      (body.questionId.getD "") (body.answer.getD ""))
    · obtain ⟨oa, og, oe⟩ := o
      cases oa <;> cases og <;> cases oe <;>
        simp [refinementTrace, hgd, hall, performResearchTrace, chainForward,
          statusForward, statusRank, hs]
    · simp [refinementTrace, hgd, hall, chainForward, statusForward, hs]
  · simp [refinementTrace, hgd, chainForward]

/-- C1 witness: the amended theorem at the sample refining and processing
sessions. -/
theorem C1_status_forward_on_intended_paths_witness :
    chainForward ((sampleRefiningSession ::
      refinementTrace ⟨some "s1", some "q1", some "Last 2 years"⟩
        (some sampleRefiningSession) sampleOutcomeOk 1).map ResearchSession.status) = true ∧
    chainForward ((sampleProcessingSession ::
      performResearchTrace sampleProcessingSession sampleOutcomeOk 3).map
        ResearchSession.status) = true :=
  C1_status_forward_on_intended_paths ⟨some "s1", some "q1", some "Last 2 years"⟩
    sampleRefiningSession sampleProcessingSession sampleOutcomeOk 1 3 rfl rfl

/-- C3 counterexample: the sample processing session has its refined prompt set
(to the composition of its questions); re-submitting question q1 with the
different answer "B" overwrites refinedPrompt with a different string. -/
theorem C3_counterexample_refinedPrompt_overwritten :
    sampleProcessingSession.refinedPrompt =
      some (composeRefinedPrompt sampleProcessingSession.initialPrompt
        sampleProcessingSession.refinementQuestions) ∧
    ((submitRefinement ⟨some "s1", some "q1", some "B"⟩ (some sampleProcessingSession) 7).2.bind
      fun s2 => s2.refinedPrompt) = some "P\n\nAdditional context:\nQ: Time period?\nA: B" ∧
    some "P\n\nAdditional context:\nQ: Time period?\nA: B" ≠
      sampleProcessingSession.refinedPrompt := by decide

/-- C3 (amended): once all questions are answered, every further submission
recomputes and overwrites refinedPrompt; re-submitting exactly the stored
answer of a question leaves refinedPrompt unchanged, but a different answer
changes it (per the counterexample), so refinedPrompt is not immutable. -/
theorem C3_resubmit_same_answer_keeps_refinedPrompt (s : ResearchSession)
    (sid qid ans : String) (t : Nat) (hsid : sid ≠ "") (hqid : qid ≠ "") (hans : ans ≠ "")
    (hsame : ∀ q ∈ s.refinementQuestions, q.id = qid → q.answer = some ans)
    (hall : allAnswered s.refinementQuestions = true)
    (hrp : s.refinedPrompt = some (s.initialPrompt ++ "\n\nAdditional context:\n" ++
      qaSection s.refinementQuestions)) :
    ((submitRefinement ⟨some sid, some qid, some ans⟩ (some s) t).2.bind
      fun s2 => s2.refinedPrompt) = s.refinedPrompt := by
  have hupd : updateQuestions s.refinementQuestions qid ans = s.refinementQuestions := by
    unfold updateQuestions
    have : ∀ q ∈ s.refinementQuestions,
        (if q.id == qid then { q with answer := some ans } else q) = q := by
      intro q hq
      by_cases h : q.id == qid
      · obtain ⟨qi, qq, qa⟩ := q
        have := hsame _ hq (beq_iff_eq.mp h)
        simp only at this
        rw [this]
        simp [h]
      · simp [h]
    rw [List.map_congr_left this]
    simp
  rw [submitRefinement]
  simp [truthy_some_of_ne hsid, truthy_some_of_ne hqid, truthy_some_of_ne hans, hupd, hall, hrp]

/-- C3 witness: re-submitting the stored answer of the sample processing
session leaves refinedPrompt unchanged. -/
theorem C3_resubmit_same_answer_keeps_refinedPrompt_witness :
    ((submitRefinement ⟨some "s1", some "q1", some "Last 2 years"⟩
        (some sampleProcessingSession) 7).2.bind fun s2 => s2.refinedPrompt) =
      sampleProcessingSession.refinedPrompt :=
  C3_resubmit_same_answer_keeps_refinedPrompt sampleProcessingSession
    "s1" "q1" "Last 2 years" 7 (by decide) (by decide) (by decide)
    (by decide) (by decide) (by decide)

/-- C6 counterexample: for the provider response " 1. When?" (leading blank),
the line qualifies (its trimmed form matches the pattern) but the enumerator is
not stripped: the produced question text is "1. When?", not "When?", because
the replacement runs on the raw line while the test ran on the trimmed line. -/
theorem C6_counterexample_enumerator_kept :
    (getRefinementQuestions (some " 1. When?")).map (fun q => q.question) = ["1. When?"] ∧
    ["1. When?"] ≠ ["When?"] := by decide

/-- C6 (amended): the planner returns the empty sequence for a failed provider
call and whenever the sentinel occurs anywhere in the response; otherwise it
returns one question per line whose trimmed text matches
"digits, then period or parenthesis, then whitespace, then text", with ids
assigned q1, q2, ... by position; the question text has the leading enumerator
stripped exactly when the raw line itself matches the pattern (in particular
when it has no leading whitespace), and is merely the trimmed raw line when
only the trimmed line matches. -/
theorem C6_refinement_parsing (r line : String) :
    getRefinementQuestions none = [] ∧
    (containsSeq sentinel.data r.data = true → getRefinementQuestions (some r) = []) ∧
    (containsSeq sentinel.data r.data = false →
      ((getRefinementQuestions (some r)).map (fun q => q.id) =
          (List.range (((splitCh '\n' r.data).map String.mk).filter qualifiesLine).length).map
            (fun k => "q" ++ toString (k + 1)) ∧
        (getRefinementQuestions (some r)).map (fun q => q.question) =
          (((splitCh '\n' r.data).map String.mk).filter qualifiesLine).map questionTextOf)) ∧
    (∀ rest, matchEnum line.data = some rest →
      questionTextOf line = jsTrim (String.mk rest)) ∧
    (matchEnum line.data = none → questionTextOf line = jsTrim line) := by
  refine ⟨rfl, ?_, ?_, ?_, ?_⟩
  · intro h
    simp [getRefinementQuestions, h]
  · intro h
    constructor
    · simp only [getRefinementQuestions, h, Bool.false_eq_true, if_false]
      rw [numberQuestions_map_id]
      refine List.map_congr_left fun k _ => ?_
      simp
    · simp only [getRefinementQuestions, h, Bool.false_eq_true, if_false]
      exact numberQuestions_map_question 0 _
  · intro rest hm
    simp [questionTextOf, hm]
  · intro hm
    simp [questionTextOf, hm]

/-- C6 witness: the amended theorem applied at concrete responses: a sentinel
response yields no questions, and a three-line response yields the filtered
questions in order. -/
theorem C6_refinement_parsing_witness :
    getRefinementQuestions none = [] ∧
    getRefinementQuestions (some "NO_REFINEMENT_NEEDED\n1. A?") = [] ∧
    (getRefinementQuestions (some "1. A?\nskip\n2) B?")).map (fun q => q.question) =
      ((((splitCh '\n' ("1. A?\nskip\n2) B?").data)).map String.mk).filter
        qualifiesLine).map questionTextOf := by
  refine ⟨(C6_refinement_parsing "" "").1, ?_, ?_⟩
  · exact (C6_refinement_parsing "NO_REFINEMENT_NEEDED\n1. A?" "").2.1 (by decide)
  · exact ((C6_refinement_parsing "1. A?\nskip\n2) B?" "").2.2.1 (by decide)).2

end ResearchAssistant
